import Mathlib

/-!
Verification development for the agentic doctor-appointment system.

The repository ships a React/TypeScript frontend (form pages, a chat
widget, and an API client) that talks to a conversational appointment
backend.  The TypeScript sources under `src/` are embedded here as plain
Lean functions; the backend orchestration core (router, loop guard,
capability handlers) is not part of the shipped sources, so it is
modelled from the specification where a property needs it.
-/

namespace DocSys

/-! ## Data model from `src/types` (unnamed/part_001) -/

/-- Message roles of `UserMessage.role`: the union `'user' | 'ai' | 'system'`. -/
inductive Role where
  | user
  | ai
  | system
deriving DecidableEq, Repr

/-- Embeds `UserMessage` from the frontend types: `{ role, content }`. -/
structure UserMessage where
  role : Role
  content : String
deriving DecidableEq, Repr

/-- Embeds `AppointmentDetails`: every field optional (`?` in TypeScript). -/
structure AppointmentDetails where
  patient_name : Option String := none
  doctor_name : Option String := none
  specialisation : Option String := none
  date : Option String := none
  time : Option String := none
  appointment_id : Option String := none
deriving DecidableEq, Repr

/-- The intent union of `UserQuery.intent`:
`'info_request' | 'book_appointment' | 'cancel_appointment' | 'reschedule_appointment'`. -/
inductive Intent where
  | info_request
  | book_appointment
  | cancel_appointment
  | reschedule_appointment
deriving DecidableEq, Repr

/-- The literal string tag each `Intent` constructor stands for in the
TypeScript union type. -/
def intentTag : Intent → String
  | .info_request => "info_request"
  | .book_appointment => "book_appointment"
  | .cancel_appointment => "cancel_appointment"
  | .reschedule_appointment => "reschedule_appointment"

/-- Embeds `UserQuery`: the request body sent to the backend `/execute`
endpoint.  Optional TypeScript fields become `Option`. -/
structure UserQuery where
  id_number : Int
  messages : List UserMessage
  intent : Option Intent := none
  details : Option AppointmentDetails := none
  next : Option String := none
  query : Option String := none
  current_reasoning : Option String := none
  step_count : Option Nat := none
deriving DecidableEq, Repr

/-- Embeds `BackendResponse`: the declared shape of the turn-processing
endpoint's response.  Only `id_number` and `messages` are required in the
TypeScript interface; `intent`, `details`, `next` and `current_reasoning`
are all optional (`?`). -/
structure BackendResponse where
  id_number : Int
  intent : Option String := none
  details : Option AppointmentDetails := none
  messages : List UserMessage
  next : Option String := none
  current_reasoning : Option String := none
deriving DecidableEq, Repr

/-- The names of the fields actually present on a `BackendResponse` value:
required fields always, optional fields only when set. -/
def fieldsPresent (r : BackendResponse) : List String :=
  ["id_number"]
    ++ (if r.intent.isSome then ["intent"] else [])
    ++ (if r.details.isSome then ["details"] else [])
    ++ ["messages"]
    ++ (if r.next.isSome then ["next"] else [])
    ++ (if r.current_reasoning.isSome then ["current_reasoning"] else [])

/-- Embeds `AppointmentFormData` from the frontend types. -/
structure AppointmentFormData where
  id_number : Int
  doctor_name : String
  specialisation : String
  date : String
  time : String
deriving DecidableEq, Repr

/-- Embeds `AvailabilityFormData` from the frontend types. -/
structure AvailabilityFormData where
  doctor_name : String
  specialisation : String
  date : String
deriving DecidableEq, Repr

/-- The `'cancel' | 'reschedule'` action union of `CancelRescheduleFormData`. -/
inductive CRAction where
  | cancel
  | reschedule
deriving DecidableEq, Repr

/-- Embeds `CancelRescheduleFormData` from the frontend types. -/
structure CancelRescheduleFormData where
  id_number : Int
  doctor_name : String
  old_date : String
  new_date : Option String := none
  action : CRAction
deriving DecidableEq, Repr

/-- Input of `appointmentApi.generalQuery`: `{ query, id_number? }`. -/
structure GeneralQueryInput where
  query : String
  id_number : Option Int := none
deriving DecidableEq, Repr

/-! ## Request builders from `src/src/api/agentApi.ts`

Each builder constructs the `UserQuery` value posted to `/execute`,
mirroring the object literals in `appointmentApi`. -/

/-- Embeds `appointmentApi.bookAppointment` (agentApi.ts lines 77-101). -/
def bookAppointment (data : AppointmentFormData) : UserQuery :=
  { id_number := data.id_number
    messages := [{ role := .user
                   content := "I want to book an appointment with " ++ data.doctor_name
                     ++ " (" ++ data.specialisation ++ ") on " ++ data.date
                     ++ " at " ++ data.time }]
    intent := some .book_appointment
    details := some { patient_name := some ("Patient " ++ toString data.id_number)
                      doctor_name := some data.doctor_name
                      specialisation := some data.specialisation
                      date := some data.date
                      time := some data.time } }

/-- Embeds `appointmentApi.checkAvailability` (agentApi.ts lines 106-126):
availability checks are posted with the default id 1234567 and the
`info_request` intent tag. -/
def checkAvailability (data : AvailabilityFormData) : UserQuery :=
  { id_number := 1234567
    messages := [{ role := .user
                   content := "Can you check if " ++ data.doctor_name
                     ++ " (" ++ data.specialisation ++ ") is available on "
                     ++ data.date ++ "?" }]
    intent := some .info_request
    details := some { doctor_name := some data.doctor_name
                      specialisation := some data.specialisation
                      date := some data.date } }

/-- Embeds `appointmentApi.cancelReschedule` (agentApi.ts lines 131-158). -/
def cancelReschedule (data : CancelRescheduleFormData) : UserQuery :=
  { id_number := data.id_number
    messages := [{ role := .user
                   content := match data.action with
                     | .cancel =>
                         "I want to cancel my appointment with " ++ data.doctor_name
                           ++ " on " ++ data.old_date
                     | .reschedule =>
                         "I want to reschedule my appointment with " ++ data.doctor_name
                           ++ " from " ++ data.old_date ++ " to "
                           ++ (data.new_date.getD "undefined") }]
    intent := some (match data.action with
      | .cancel => .cancel_appointment
      | .reschedule => .reschedule_appointment)
    details := some { doctor_name := some data.doctor_name
                      date := some data.old_date
                      appointment_id := some (toString data.id_number ++ "-"
                        ++ data.doctor_name ++ "-" ++ data.old_date) } }

/-- Embeds `appointmentApi.generalQuery` (agentApi.ts lines 163-175); the
JavaScript `data.id_number || 1234567` treats a missing or zero id as
falsy and substitutes the default. -/
def generalQuery (data : GeneralQueryInput) : UserQuery :=
  { id_number := match data.id_number with
      | some n => if n = 0 then 1234567 else n
      | none => 1234567
    messages := [{ role := .user, content := data.query }]
    intent := some .info_request
    query := some data.query }

/-! ## Form validation from `src/unnamed/part_002` (AppointmentForm) -/

/-- Embeds the parts of `FormField` that `validateForm` reads: `name`,
`label` and `required` (an absent `required?` is falsy, hence `false`).
The presentation-only members (`type`, `placeholder`, `options`) play no
role in validation and are omitted. -/
structure FormField where
  name : String
  label : String
  required : Bool := false
deriving DecidableEq, Repr

/-- Form data as the association of field names to entered strings, the
embedding of the `Record<string, string>` state `formData`. -/
abbrev FormData := List (String × String)

/-- JavaScript whitespace as `String.prototype.trim` strips it: space,
tab, newline and carriage return cover every character the forms can
produce. -/
def isWhite (c : Char) : Bool :=
  c == ' ' || c == '\t' || c == '\n' || c == '\r'

/-- Whitespace stripped from both ends of a character list. -/
def trimChars (s : List Char) : List Char :=
  ((s.dropWhile isWhite).reverse.dropWhile isWhite).reverse

/-- JavaScript `s.trim()`. -/
def jsTrim (s : String) : String :=
  String.mk (trimChars s.data)

/-- Whether `validateForm` records an error for a field: the JavaScript
test `field.required && !formData[field.name]?.trim()` errors when the
field is required and its value is missing or blank after trimming. -/
def requiredMissing (formData : FormData) (f : FormField) : Bool :=
  f.required && ((jsTrim ((formData.lookup f.name).getD "")) == "")

/-- Embeds the error record built by `AppointmentForm.validateForm`
(part_002 lines 92-103): one `label ++ " is required"` entry per required
field whose value is missing or blank. -/
def formErrors (fields : List FormField) (formData : FormData) :
    List (String × String) :=
  (fields.filter (fun f => requiredMissing formData f)).map
    (fun f => (f.name, f.label ++ " is required"))

/-- Embeds the result of `AppointmentForm.validateForm`: true exactly when
no error entry was recorded (`Object.keys(newErrors).length === 0`). -/
def validateForm (fields : List FormField) (formData : FormData) : Bool :=
  formErrors fields formData == []

/-- Embeds `AppointmentForm.handleSubmit` (part_002 lines 105-110): the
`onSubmit` callback receives the form data exactly when `validateForm`
returns true; `some` marks the invocation, `none` a blocked submit. -/
def handleSubmit (fields : List FormField) (formData : FormData) :
    Option FormData :=
  if validateForm fields formData then some formData else none

/-- The field list of the Check Availability page
(`src/src/pages/CheckAvailability.tsx` lines 12-52): doctor name,
specialisation and date, every one marked required. -/
def caFields : List FormField :=
  [{ name := "doctor_name", label := "Doctor Name", required := true },
   { name := "specialisation", label := "Specialization", required := true },
   { name := "date", label := "Check Date", required := true }]

/-! ## The client date conversion
`dateStr.split('-').reverse().join('-')` appears in
`BookAppointment.tsx` (line 73), `CheckAvailability.tsx` (line 59) and
`CancelReschedule.tsx` (lines 91, 97).  Strings are embedded as `List
Char`; `splitOnChar` is JavaScript `split` on a one-character separator
and `joinWithChar` is `Array.prototype.join`. -/

/-- Helper of `splitOnChar`: the first segment of the split and the list
of the remaining segments. -/
def splitAux (c : Char) : List Char → List Char × List (List Char)
  | [] => ([], [])
  | x :: xs =>
    let r := splitAux c xs
    if x = c then ([], r.1 :: r.2) else (x :: r.1, r.2)

/-- JavaScript `s.split(c)` for a one-character separator `c`: the list
of separator-free segments, never empty. -/
def splitOnChar (c : Char) (s : List Char) : List (List Char) :=
  (splitAux c s).1 :: (splitAux c s).2

/-- JavaScript `parts.join(c)` for a one-character separator `c`. -/
def joinWithChar (c : Char) : List (List Char) → List Char
  | [] => []
  | [p] => p
  | p :: q :: ps => p ++ c :: joinWithChar c (q :: ps)

/-- The client date conversion `dateStr.split('-').reverse().join('-')`
on character lists. -/
def convertDate (s : List Char) : List Char :=
  joinWithChar '-' (splitOnChar '-' s).reverse

/-- The same conversion lifted to `String`. -/
def convertDateStr (s : String) : String :=
  String.mk (convertDate s.data)

/-! ## Response handling in the pages and the chat widget -/

/-- Chat message kinds of the frontend `Message.type` union. -/
inductive MsgType where
  | user
  | assistant
deriving DecidableEq, Repr

/-- The chat-window message as the pages build it (`id` and `timestamp`
are wall-clock presentation data and are not embedded). -/
structure ChatMsg where
  type : MsgType
  content : String
deriving DecidableEq, Repr

/-- JavaScript `messages[messages.length - 1]?.content || fallback`: the
content of the last backend message, or the fallback when there is no
last message or its content is the empty (falsy) string. -/
def lastContentOr (fallback : String) (ms : List UserMessage) : String :=
  match ms.getLast? with
  | some m => if m.content = "" then fallback else m.content
  | none => fallback

/-- The outcome of an `/execute` call at the page boundary: `ok` carries
the backend response, `error` the message of the thrown `Error`. -/
abbrev ApiResult := Except String BackendResponse

/-- Embeds the try/catch of `BookAppointment.handleSubmit` (lines
85-115): on success the last backend message (or a success fallback) is
appended as the assistant reply; on failure the catch block appends the
apologetic reply and no exception escapes. -/
def bookReplyMessages (result : ApiResult) (msgs : List ChatMsg) :
    List ChatMsg :=
  match result with
  | .ok resp =>
      msgs ++ [{ type := .assistant
                 content := lastContentOr "Appointment processed successfully" resp.messages }]
  | .error e =>
      msgs ++ [{ type := .assistant
                 content := "Sorry, I encountered an error: " ++ e }]

/-- Embeds the try/catch of `ChatInterface.handleSendMessage` (lines
63-87): the catch block appends a fixed apologetic assistant reply. -/
def chatReplyMessages (result : ApiResult) (msgs : List ChatMsg) :
    List ChatMsg :=
  match result with
  | .ok resp =>
      msgs ++ [{ type := .assistant
                 content := lastContentOr
                   "I apologize, but I encountered an issue processing your request. Please try again."
                   resp.messages }]
  | .error _ =>
      msgs ++ [{ type := .assistant
                 content := "I apologize, but I encountered an error while processing your request. Please check your connection and try again." }]

/-! ## The orchestration core, modelled from the specification

The repository ships only the frontend; the backend router, loop guard,
capability handlers and session state (spec sections 3, 4.1, 4.2, 4.3)
are not under `src/`.  The definitions below model that missing core
from the specification's words. -/

/-- Modelled from the spec: the missing backend's fixed capability
enumeration {book, check_availability, cancel, reschedule, general_info}
(spec section 3, `intent`). -/
inductive Capability where
  | book
  | check_availability
  | cancel
  | reschedule
  | general_info
deriving DecidableEq, Repr

/-- Modelled from the spec: the missing backend's session status, one of
{active, finished}, terminal once finished (spec section 3). -/
inductive SessionStatus where
  | active
  | finished
deriving DecidableEq, Repr

/-- Modelled from the spec: the missing backend's slot record — named
fields mapped to optional string values, each independently nullable
(spec section 3, `slots`). -/
structure Slots where
  doctor : Option String := none
  specialization : Option String := none
  date : Option String := none
  time : Option String := none
  appointment_reference : Option String := none
deriving DecidableEq, Repr

/-- Modelled from the spec: the missing Slot Extractor collaborator's
output — the fields it confidently resolved this turn, absent fields
meaning no update (spec sections 2 and 4.1 step 3). -/
structure SlotDelta where
  doctor : Option String := none
  specialization : Option String := none
  date : Option String := none
  time : Option String := none
  appointment_reference : Option String := none
deriving DecidableEq, Repr

/-- Modelled from the spec: the missing backend's Conversation State
record (spec section 3). -/
structure ConvState where
  patient_id : Int
  messages : List (Role × String) := []
  slots : Slots := {}
  intent : Option Capability := none
  routing_history : List (Capability × Capability) := []
  step_count : Nat := 0
  status : SessionStatus := .active
  last_reasoning : String := ""
deriving DecidableEq, Repr

/-- Modelled from the spec: router configuration — the Loop Guard
threshold (configurable, default 2) and the routing-history bound
(spec sections 3 and 4.2). -/
structure Config where
  threshold : Nat := 2
  historyCap : Nat := 10
deriving DecidableEq, Repr

/-- Modelled from the spec: the merge of one extracted field — a
non-empty extractor result overwrites, an empty or absent result keeps
the previous value (spec sections 3 and 4.1 step 3). -/
def mergeField (old : Option String) : Option String → Option String
  | some v => if v = "" then old else some v
  | none => old

/-- Modelled from the spec: slot merge after extraction — overwrite only
fields the extractor returns with a non-empty value (spec 4.1 step 3). -/
def mergeSlots (s : Slots) (d : SlotDelta) : Slots :=
  { doctor := mergeField s.doctor d.doctor
    specialization := mergeField s.specialization d.specialization
    date := mergeField s.date d.date
    time := mergeField s.time d.time
    appointment_reference := mergeField s.appointment_reference d.appointment_reference }

/-- Modelled from the spec: the slots after this turn's extraction; a
failed extractor call (`none`) yields no updates (spec section 2). -/
def slotsAfterExtract (s : Slots) : Option SlotDelta → Slots
  | some d => mergeSlots s d
  | none => s

/-- The last `n` entries of a list. -/
def lastN (n : Nat) (xs : List α) : List α :=
  xs.drop (xs.length - n)

/-- Whether every entry of the list equals its first entry. -/
def allSame [DecidableEq α] : List α → Bool
  | [] => true
  | x :: xs => xs.all (fun y => y == x)

/-- Modelled from the spec: the missing Loop Guard — a repeat is
detected when the last `threshold` routing decisions select the same
capability target and no slot field changed value between those turns
(spec section 4.2). -/
def isRepeating (threshold : Nat) (targets : List Capability)
    (before after : Slots) : Bool :=
  decide (threshold ≤ targets.length)
    && allSame (lastN threshold targets)
    && decide (before = after)

/-- The capability targets of the routing history's `(intent, target)`
entries. -/
def targetsOf (h : List (Capability × Capability)) : List Capability :=
  h.map (fun e => e.2)

/-- Modelled from the spec: bounded append to `routing_history` — the
oldest entries are evicted past the bound (spec section 3). -/
def truncAppend (bound : Nat) (h : List α) (e : α) : List α :=
  let h2 := h ++ [e]
  h2.drop (h2.length - bound)

/-- Modelled from the spec: the terminal-state rejection reply of the
missing router (spec 4.1 step 1). -/
def endedReply : String :=
  "This conversation has ended. Please start a new session to continue."

/-- Modelled from the spec: the missing router's termination reply when
the Loop Guard fires (spec 4.1 step 6). -/
def loopReply : String :=
  "Ending the conversation: the same request was routed repeatedly without new information."

/-- Modelled from the spec: the apologetic reply surfaced when an
external collaborator fails (spec sections 4.3 and 7a). -/
def apologyReply : String :=
  "Sorry, I am having trouble processing your request right now. Please try again."

/-- Modelled from the spec: the missing Booking handler — requires
doctor and date/time; if a required slot is missing it asks for the
missing fields and leaves the session active, on success it marks
`appointment_reference` and leaves the session open (spec 4.3). -/
def bookingHandler (st : ConvState) : ConvState × String :=
  if st.slots.doctor.isSome && st.slots.date.isSome && st.slots.time.isSome then
    ({ st with slots := { st.slots with
         appointment_reference := some ("APT-" ++ toString st.patient_id
           ++ "-" ++ toString st.step_count) } },
     "Your appointment is booked.")
  else
    (st, "To book your appointment I still need: "
      ++ String.intercalate ", "
        ((if st.slots.doctor.isSome then [] else ["doctor"])
          ++ (if st.slots.date.isSome then [] else ["date"])
          ++ (if st.slots.time.isSome then [] else ["time"])))

/-- Modelled from the spec: the missing Check Availability handler —
requires a doctor or a specialization together with a date, returns a
descriptive reply and does not mutate `status` (spec 4.3). -/
def availabilityHandler (st : ConvState) : ConvState × String :=
  if (st.slots.doctor.isSome || st.slots.specialization.isSome)
      && st.slots.date.isSome then
    (st, "Here is the availability I found for "
      ++ (st.slots.date.getD "") ++ ".")
  else
    (st, "To check availability I need a doctor or a specialization, and a date.")

/-- Modelled from the spec: the missing Cancel handler — requires the
patient id, doctor and the original date/time; a cancel without a
matching appointment states that no action was taken (spec 4.3). -/
def cancelHandler (st : ConvState) : ConvState × String :=
  if st.slots.doctor.isSome && st.slots.date.isSome && st.slots.time.isSome then
    (st, "Your cancellation request was processed; if no matching appointment exists, no action was taken.")
  else
    (st, "To cancel I need the doctor and the original date and time of the appointment.")

/-- Modelled from the spec: the missing Reschedule handler — requires
the patient id, doctor and the original date/time plus the new ones
(spec 4.3). -/
def rescheduleHandler (st : ConvState) : ConvState × String :=
  if st.slots.doctor.isSome && st.slots.date.isSome && st.slots.time.isSome then
    (st, "Your reschedule request was processed.")
  else
    (st, "To reschedule I need the doctor and the original and new dates and times.")

/-- Modelled from the spec: the missing General Info handler — no
required slots, answers from message content, never transitions
`status` (spec 4.3). -/
def generalInfoHandler (st : ConvState) : ConvState × String :=
  (st, "Happy to help with general information about the clinic.")

/-- Modelled from the spec: the missing router's exhaustive dispatch
over the fixed capability enumeration (spec 4.1 step 7 and section 9). -/
def dispatch (cap : Capability) (st : ConvState) : ConvState × String :=
  match cap with
  | .book => bookingHandler st
  | .check_availability => availabilityHandler st
  | .cancel => cancelHandler st
  | .reschedule => rescheduleHandler st
  | .general_info => generalInfoHandler st

/-- Modelled from the spec: the missing router's `ProcessTurn(state,
incoming_message) -> (updatedState, replyText)` (spec 4.1).  The Slot
Extractor and Intent Classifier collaborators enter as explicit inputs,
`none` standing for a failed or timed-out call.  Steps: terminal-state
rejection; append the message and count the step; merge extraction;
on classifier failure fall back safely (default intent, apologetic
reply, session stays active, spec 7a); otherwise record the classified
intent and rationale, consult the Loop Guard over the routing targets
including this turn's decision, and either terminate or append the
decision to the bounded history and dispatch. -/
def ProcessTurn (cfg : Config) (extract : Option SlotDelta)
    (classify : Option (Capability × String)) (st : ConvState)
    (msg : String) : ConvState × String :=
  if st.status = .finished then
    (st, endedReply)
  else
    let s1 : ConvState := { st with
      messages := st.messages ++ [(Role.user, msg)]
      step_count := st.step_count + 1 }
    let s2 : ConvState := { s1 with slots := slotsAfterExtract s1.slots extract }
    match classify with
    | none =>
        ({ s2 with
            intent := some .general_info
            last_reasoning := "classifier unavailable; safe default applied" },
         apologyReply)
    | some (cap, why) =>
        let s3 : ConvState := { s2 with intent := some cap, last_reasoning := why }
        if isRepeating cfg.threshold (targetsOf s3.routing_history ++ [cap])
            st.slots s3.slots then
          ({ s3 with status := .finished }, loopReply)
        else
          dispatch cap { s3 with
            routing_history := truncAppend cfg.historyCap s3.routing_history (cap, cap) }

/-- Modelled from the spec: one turn's inputs — the collaborator
outcomes and the incoming message. -/
structure TurnInput where
  extract : Option SlotDelta := none
  classify : Option (Capability × String) := none
  message : String
deriving Repr

/-- Modelled from the spec: a session as the fold of `ProcessTurn` over
a sequence of turns (spec section 2, control flow per incoming
message). -/
def runTurns (cfg : Config) (st : ConvState) : List TurnInput → ConvState
  | [] => st
  | t :: ts => runTurns cfg (ProcessTurn cfg t.extract t.classify st t.message).1 ts

/-- The number of processed (non-rejected) turns in a sequence: a turn
is processed when the session is still active on entry (spec sections
7d and 8). -/
def countProcessed (cfg : Config) (st : ConvState) : List TurnInput → Nat
  | [] => 0
  | t :: ts =>
      (if st.status = .active then 1 else 0)
        + countProcessed cfg (ProcessTurn cfg t.extract t.classify st t.message).1 ts

/-- Modelled from the spec: the state created on a session's first
message — active, zero steps, empty slots and history (spec section 3,
lifecycle). -/
def initialState (patient : Int) : ConvState :=
  { patient_id := patient }

/-! ## Concrete values used in the development -/

/-- The least response value the declared `BackendResponse` interface
admits: only the required fields `id_number` and `messages` are set. -/
def minimalResponse : BackendResponse :=
  { id_number := 1234567
    messages := [{ role := .ai, content := "How can I help you?" }] }

/-- A concrete finished session state. -/
def finishedState : ConvState :=
  { patient_id := 7, status := .finished }

/-! ## Lemmas on the split/join date machinery -/

theorem splitAux_cons (c x : Char) (xs : List Char) :
    splitAux c (x :: xs) =
      if x = c then ([], (splitAux c xs).1 :: (splitAux c xs).2)
      else (x :: (splitAux c xs).1, (splitAux c xs).2) := rfl

theorem joinWithChar_cons₂ (c : Char) (p q : List Char) (ps : List (List Char)) :
    joinWithChar c (p :: q :: ps) = p ++ c :: joinWithChar c (q :: ps) := rfl

/-- No segment produced by `splitAux` contains the separator. -/
theorem splitAux_no_sep (c : Char) (s : List Char) :
    c ∉ (splitAux c s).1 ∧ ∀ p ∈ (splitAux c s).2, c ∉ p := by
  induction s with
  | nil => simp [splitAux]
  | cons x xs ih =>
    rw [splitAux_cons]
    by_cases hx : x = c
    · simp only [if_pos hx]
      refine ⟨by simp, ?_⟩
      intro p hp
      rcases List.mem_cons.mp hp with h1 | h2
      · exact h1 ▸ ih.1
      · exact ih.2 p h2
    · simp only [if_neg hx]
      refine ⟨?_, ih.2⟩
      intro hc
      rcases List.mem_cons.mp hc with h1 | h2
      · exact hx h1.symm
      · exact ih.1 h2

/-- Joining the segments of a split restores the original list. -/
theorem join_splitAux (c : Char) (s : List Char) :
    joinWithChar c ((splitAux c s).1 :: (splitAux c s).2) = s := by
  induction s with
  | nil => rfl
  | cons x xs ih =>
    rw [splitAux_cons]
    by_cases hx : x = c
    · simp only [if_pos hx]
      rw [joinWithChar_cons₂, List.nil_append, ih, hx]
    · simp only [if_neg hx]
      cases h2 : (splitAux c xs).2 with
      | nil =>
        rw [h2] at ih
        show x :: (splitAux c xs).1 = x :: xs
        rw [show joinWithChar c [(splitAux c xs).1] = (splitAux c xs).1 from rfl] at ih
        rw [ih]
      | cons q qs =>
        rw [h2] at ih
        rw [joinWithChar_cons₂, List.cons_append]
        rw [joinWithChar_cons₂] at ih
        rw [ih]

/-- A separator-free list splits into itself alone. -/
theorem splitAux_of_not_mem (c : Char) (p : List Char) (h : c ∉ p) :
    splitAux c p = (p, []) := by
  induction p with
  | nil => rfl
  | cons x xs ih =>
    have hx : ¬x = c := fun hx => h (by rw [hx]; exact List.mem_cons_self c xs)
    have hxs : c ∉ xs := fun hm => h (List.mem_cons_of_mem x hm)
    rw [splitAux_cons, if_neg hx, ih hxs]

/-- Splitting past a separator-free head segment peels it off. -/
theorem splitAux_append_sep (c : Char) (p rest : List Char) (h : c ∉ p) :
    splitAux c (p ++ c :: rest)
      = (p, (splitAux c rest).1 :: (splitAux c rest).2) := by
  induction p with
  | nil => rw [List.nil_append, splitAux_cons, if_pos rfl]
  | cons x xs ih =>
    have hx : ¬x = c := fun hx => h (by rw [hx]; exact List.mem_cons_self c xs)
    have hxs : c ∉ xs := fun hm => h (List.mem_cons_of_mem x hm)
    rw [List.cons_append, splitAux_cons, if_neg hx, ih hxs]

/-- Splitting a join restores the segments, when none contains the
separator. -/
theorem splitOnChar_joinWithChar (c : Char) (parts : List (List Char))
    (hne : parts ≠ []) (h : ∀ p ∈ parts, c ∉ p) :
    splitOnChar c (joinWithChar c parts) = parts := by
  induction parts with
  | nil => exact absurd rfl hne
  | cons p rest ih =>
    cases rest with
    | nil =>
      show splitOnChar c (joinWithChar c [p]) = [p]
      have hp : c ∉ p := h p (List.mem_cons_self p [])
      unfold splitOnChar
      rw [show joinWithChar c [p] = p from rfl, splitAux_of_not_mem c p hp]
    | cons q qs =>
      have hp : c ∉ p := h p (List.mem_cons_self p (q :: qs))
      have hrest : ∀ x ∈ q :: qs, c ∉ x := fun x hx => h x (List.mem_cons_of_mem p hx)
      have ih2 := ih (by simp) hrest
      unfold splitOnChar at ih2 ⊢
      rw [joinWithChar_cons₂, splitAux_append_sep c p _ hp]
      rw [List.cons.injEq] at ih2
      rw [ih2.1, ih2.2]

/-- `convertDate` maps a three-segment date to the segments reversed:
YYYY-MM-DD becomes DD-MM-YYYY. -/
theorem convertDate_three (y m d : List Char)
    (hy : '-' ∉ y) (hm : '-' ∉ m) (hd : '-' ∉ d) :
    convertDate (y ++ '-' :: m ++ '-' :: d) = d ++ '-' :: m ++ '-' :: y := by
  have hj : y ++ '-' :: m ++ '-' :: d = joinWithChar '-' [y, m, d] := by
    rw [joinWithChar_cons₂, joinWithChar_cons₂,
      show joinWithChar '-' [d] = d from rfl]
    simp
  have hs : splitOnChar '-' (y ++ '-' :: m ++ '-' :: d) = [y, m, d] := by
    rw [hj]
    refine splitOnChar_joinWithChar '-' [y, m, d] (by simp) ?_
    intro p hp
    simp only [List.mem_cons, List.not_mem_nil, or_false] at hp
    rcases hp with rfl | rfl | rfl
    exacts [hy, hm, hd]
  unfold convertDate
  rw [hs]
  show joinWithChar '-' [d, m, y] = d ++ '-' :: m ++ '-' :: y
  rw [joinWithChar_cons₂, joinWithChar_cons₂,
    show joinWithChar '-' [y] = y from rfl]
  simp

/-- The conversion is an involution. -/
theorem convertDate_involutive (s : List Char) :
    convertDate (convertDate s) = s := by
  unfold convertDate
  rw [splitOnChar_joinWithChar '-' (splitOnChar '-' s).reverse
    (by simp [splitOnChar]) ?_]
  · rw [List.reverse_reverse]
    exact join_splitAux '-' s
  · intro p hp
    rw [List.mem_reverse] at hp
    unfold splitOnChar at hp
    rcases List.mem_cons.mp hp with h1 | h2
    · exact h1 ▸ (splitAux_no_sep '-' s).1
    · exact (splitAux_no_sep '-' s).2 p h2

/-! ## Lemmas on form validation -/

/-- A field records no error exactly when, if it is required, the form
data holds a non-blank value for it. -/
theorem requiredMissing_false_iff (formData : FormData) (f : FormField) :
    requiredMissing formData f = false ↔
      (f.required = true →
        ∃ v, formData.lookup f.name = some v ∧ jsTrim v ≠ "") := by
  unfold requiredMissing
  cases hr : f.required with
  | false => simp
  | true =>
    simp only [Bool.true_and, true_implies]
    cases hl : formData.lookup f.name with
    | none =>
      simp only [Option.getD_none]
      constructor
      · intro h
        rw [show jsTrim "" = "" from rfl] at h
        simp at h
      · rintro ⟨v, hv, -⟩
        exact absurd hv (by simp)
    | some v =>
      simp only [Option.getD_some]
      constructor
      · intro h
        exact ⟨v, rfl, by simpa using h⟩
      · rintro ⟨w, hw, hne⟩
        obtain rfl : v = w := by simpa using hw
        simpa using hne

/-- `validateForm` succeeds exactly when every required field has a
non-blank value. -/
theorem validateForm_iff (fields : List FormField) (formData : FormData) :
    validateForm fields formData = true ↔
      ∀ f ∈ fields, f.required = true →
        ∃ v, formData.lookup f.name = some v ∧ jsTrim v ≠ "" := by
  unfold validateForm formErrors
  rw [beq_iff_eq, List.map_eq_nil_iff, List.filter_eq_nil_iff]
  constructor
  · intro h f hf
    exact (requiredMissing_false_iff formData f).mp (by simpa using h f hf)
  · intro h f hf
    simpa using (requiredMissing_false_iff formData f).mpr (h f hf)

/-! ## Lemmas on the modelled router -/

/-- No capability handler changes the session status, the step count,
the routing history or the message log: handlers only touch slots and
produce a reply. -/
theorem dispatch_frame (cap : Capability) (st : ConvState) :
    ((dispatch cap st).1).status = st.status
    ∧ ((dispatch cap st).1).step_count = st.step_count
    ∧ ((dispatch cap st).1).routing_history = st.routing_history
    ∧ ((dispatch cap st).1).messages = st.messages := by
  cases cap <;>
    simp only [dispatch, bookingHandler, availabilityHandler, cancelHandler,
      rescheduleHandler, generalInfoHandler] <;>
    (try split) <;> simp

/-- Handlers never change the session status. -/
theorem dispatch_status (cap : Capability) (st : ConvState) :
    ((dispatch cap st).1).status = st.status :=
  (dispatch_frame cap st).1

/-- Handlers never change the routing history. -/
theorem dispatch_history (cap : Capability) (st : ConvState) :
    ((dispatch cap st).1).routing_history = st.routing_history :=
  (dispatch_frame cap st).2.2.1

/-- A processed turn advances `step_count` by one, a rejected turn by
zero. -/
theorem ProcessTurn_step_count (cfg : Config) (extract : Option SlotDelta)
    (classify : Option (Capability × String)) (st : ConvState) (msg : String) :
    ((ProcessTurn cfg extract classify st msg).1).step_count
      = st.step_count + (if st.status = .active then 1 else 0) := by
  unfold ProcessTurn
  cases hs : st.status with
  | finished => simp
  | active =>
    simp only [hs, reduceCtorEq, if_false, if_true]
    cases classify with
    | none => simp
    | some pc =>
      obtain ⟨cap, why⟩ := pc
      simp only []
      split
      · simp
      · exact (dispatch_frame cap _).2.1

/-! ## Claim theorems -/

/-- C1, counterexample: the availability request built by
`appointmentApi.checkAvailability` carries the intent tag
`info_request`, a tag outside the five-tag set {book,
check_availability, cancel, reschedule, general_info} the claim fixes:
the code enumerates four differently named tags and has no dedicated
availability tag. -/
theorem c1_five_tags_counterexample :
    (checkAvailability
        { doctor_name := "john doe", specialisation := "general_dentist",
          date := "15-01-2025" }).intent = some Intent.info_request
    ∧ intentTag Intent.info_request
        ∉ ["book", "check_availability", "cancel", "reschedule", "general_info"] :=
  ⟨rfl, by decide⟩

/-- C1, amended: every request the frontend API builds carries an
intent, and its tag lies in the four-tag union of the code —
info_request, book_appointment, cancel_appointment,
reschedule_appointment; availability checks are tagged `info_request`
rather than a dedicated check_availability tag. -/
theorem c1_intent_tags_from_code (b : AppointmentFormData)
    (a : AvailabilityFormData) (cr : CancelRescheduleFormData)
    (g : GeneralQueryInput) :
    (∃ i, (bookAppointment b).intent = some i ∧ intentTag i
      ∈ ["info_request", "book_appointment", "cancel_appointment", "reschedule_appointment"])
    ∧ (∃ i, (checkAvailability a).intent = some i ∧ intentTag i
      ∈ ["info_request", "book_appointment", "cancel_appointment", "reschedule_appointment"])
    ∧ (∃ i, (cancelReschedule cr).intent = some i ∧ intentTag i
      ∈ ["info_request", "book_appointment", "cancel_appointment", "reschedule_appointment"])
    ∧ (∃ i, (generalQuery g).intent = some i ∧ intentTag i
      ∈ ["info_request", "book_appointment", "cancel_appointment", "reschedule_appointment"]) := by
  refine ⟨⟨Intent.book_appointment, rfl, by decide⟩,
    ⟨Intent.info_request, rfl, by decide⟩, ?_,
    ⟨Intent.info_request, rfl, by decide⟩⟩
  rcases cr with ⟨id, dn, od, nd, act⟩
  cases act
  · exact ⟨Intent.cancel_appointment, rfl, by decide⟩
  · exact ⟨Intent.reschedule_appointment, rfl, by decide⟩

/-- C2, counterexample: the declared response interface admits a value
carrying only `id_number` and `messages` — in particular no status
(`next`) field — so a turn response need not contain all six fields the
claim lists. -/
theorem c2_six_fields_counterexample :
    fieldsPresent minimalResponse = ["id_number", "messages"]
    ∧ "next" ∉ fieldsPresent minimalResponse
    ∧ "intent" ∉ fieldsPresent minimalResponse :=
  ⟨rfl, by decide, by decide⟩

/-- C2, amended: every response value of the declared interface carries
the patient id (`id_number`) and `messages`; the four remaining fields
— intent, slots (`details`), status (`next`) and reasoning
(`current_reasoning`) — are optional and a response's fields always lie
within the six declared ones. -/
theorem c2_response_fields (r : BackendResponse) :
    "id_number" ∈ fieldsPresent r ∧ "messages" ∈ fieldsPresent r
    ∧ fieldsPresent r
        ⊆ ["id_number", "intent", "details", "messages", "next", "current_reasoning"] := by
  obtain ⟨i, it, dt, ms, nx, cr⟩ := r
  cases it <;> cases dt <;> cases nx <;> cases cr <;>
    refine ⟨?_, ?_, ?_⟩ <;> simp [fieldsPresent, List.subset_def]

/-- C6, counterexample: an availability submission supplying a doctor
and a date but no specialisation is rejected by the Check Availability
form — the page marks doctor, specialisation and date all required, so
(doctor OR specialisation) with a date does not suffice. -/
theorem c6_availability_counterexample :
    validateForm caFields
      [("doctor_name", "john doe"), ("date", "2025-01-15")] = false := by
  decide

/-- C6, amended: an availability submission is accepted exactly when
doctor, specialisation and date are all supplied with non-blank values;
and the modelled availability handler never mutates the session
status. -/
theorem c6_availability_requirements (formData : FormData) :
    (validateForm caFields formData = true ↔
      ((∃ v, formData.lookup "doctor_name" = some v ∧ jsTrim v ≠ "")
        ∧ (∃ v, formData.lookup "specialisation" = some v ∧ jsTrim v ≠ "")
        ∧ (∃ v, formData.lookup "date" = some v ∧ jsTrim v ≠ "")))
    ∧ ∀ st : ConvState, ((availabilityHandler st).1).status = st.status := by
  constructor
  · rw [validateForm_iff]
    constructor
    · intro h
      exact ⟨h { name := "doctor_name", label := "Doctor Name", required := true }
          (by simp [caFields]) rfl,
        h { name := "specialisation", label := "Specialization", required := true }
          (by simp [caFields]) rfl,
        h { name := "date", label := "Check Date", required := true }
          (by simp [caFields]) rfl⟩
    · rintro ⟨h1, h2, h3⟩ f hf hr
      simp only [caFields, List.mem_cons, List.not_mem_nil, or_false] at hf
      rcases hf with rfl | rfl | rfl
      exacts [h1, h2, h3]
  · intro st
    unfold availabilityHandler
    split <;> rfl

/-- C8: `validateForm` returns true exactly when every field marked
required has a value in the form data whose trimmed text is non-empty
(fields not marked required never block), and `handleSubmit` invokes
the `onSubmit` callback exactly when validation succeeds. -/
theorem c8_validate_and_submit (fields : List FormField) (formData : FormData) :
    (validateForm fields formData = true ↔
      ∀ f ∈ fields, f.required = true →
        ∃ v, formData.lookup f.name = some v ∧ jsTrim v ≠ "")
    ∧ (handleSubmit fields formData = some formData
        ↔ validateForm fields formData = true) := by
  refine ⟨validateForm_iff fields formData, ?_⟩
  unfold handleSubmit
  split <;> simp_all

/-- C9: the client date conversion (split on the dash, reverse, rejoin)
maps any three-segment date YYYY-MM-DD to DD-MM-YYYY, and applying it
twice to any string of three dash-separated segments returns the
original string. -/
theorem c9_date_conversion (y m d : List Char)
    (hy : '-' ∉ y) (hm : '-' ∉ m) (hd : '-' ∉ d)
    (s : List Char) (_hs : (splitOnChar '-' s).length = 3) :
    convertDate (y ++ '-' :: m ++ '-' :: d) = d ++ '-' :: m ++ '-' :: y
    ∧ convertDate (convertDate s) = s :=
  ⟨convertDate_three y m d hy hm hd, convertDate_involutive s⟩

/-- C9, witness at 2025-01-15. -/
theorem c9_date_conversion_witness :
    convertDate ("2025".data ++ '-' :: "01".data ++ '-' :: "15".data)
        = "15".data ++ '-' :: "01".data ++ '-' :: "2025".data
    ∧ convertDate (convertDate "2025-01-15".data) = "2025-01-15".data :=
  c9_date_conversion "2025".data "01".data "15".data
    (by decide) (by decide) (by decide) "2025-01-15".data (by decide)

/-- C3: on an active session with a classified capability, the router
forces termination exactly when the Loop Guard condition holds — the
last `threshold` routing targets, this turn's decision included,
coincide and no slot field changed value this turn; when it fires the
status becomes finished, and whenever the targets differ or a slot
changed the turn proceeds to normal dispatch, appending the routing
decision and leaving the session active. -/
theorem c3_loop_guard (cfg : Config) (extract : Option SlotDelta)
    (cap : Capability) (why : String) (st : ConvState) (msg : String)
    (h : st.status = .active) :
    (((ProcessTurn cfg extract (some (cap, why)) st msg).1).status = .finished
      ↔ isRepeating cfg.threshold (targetsOf st.routing_history ++ [cap])
          st.slots (slotsAfterExtract st.slots extract) = true)
    ∧ (isRepeating cfg.threshold (targetsOf st.routing_history ++ [cap])
          st.slots (slotsAfterExtract st.slots extract) = false →
        ((ProcessTurn cfg extract (some (cap, why)) st msg).1).routing_history
            = truncAppend cfg.historyCap st.routing_history (cap, cap)
          ∧ ((ProcessTurn cfg extract (some (cap, why)) st msg).1).status
              = .active) := by
  cases hguard : isRepeating cfg.threshold (targetsOf st.routing_history ++ [cap])
      st.slots (slotsAfterExtract st.slots extract) with
  | true =>
    refine ⟨?_, by intro hf; cases hf⟩
    simp [ProcessTurn, h, hguard]
  | false =>
    constructor
    · simp [ProcessTurn, h, hguard, dispatch_status]
    · intro _
      constructor
      · simp [ProcessTurn, h, hguard, dispatch_history]
      · simp [ProcessTurn, h, hguard, dispatch_status]

/-- C3, witness: a first availability turn on a fresh session — one
routing entry is below the default threshold of two, so the guard is
quiet, the decision is appended and the session stays active. -/
theorem c3_loop_guard_witness :
    (((ProcessTurn {} none (some (.check_availability, "routing"))
        (initialState 7) "any availability?").1).status = .finished
      ↔ isRepeating (Config.threshold {})
          (targetsOf (initialState 7).routing_history ++ [.check_availability])
          (initialState 7).slots
          (slotsAfterExtract (initialState 7).slots none) = true)
    ∧ (isRepeating (Config.threshold {})
          (targetsOf (initialState 7).routing_history ++ [.check_availability])
          (initialState 7).slots
          (slotsAfterExtract (initialState 7).slots none) = false →
        ((ProcessTurn {} none (some (.check_availability, "routing"))
            (initialState 7) "any availability?").1).routing_history
            = truncAppend (Config.historyCap {}) (initialState 7).routing_history
                (.check_availability, .check_availability)
          ∧ ((ProcessTurn {} none (some (.check_availability, "routing"))
              (initialState 7) "any availability?").1).status = .active) :=
  c3_loop_guard {} none .check_availability "routing" (initialState 7)
    "any availability?" rfl

/-- C4: a turn arriving on a finished session is rejected: the state
comes back unchanged in every field — no message appended, no slot
changed, step count and routing history untouched — and only the reply
text indicates the session has ended. -/
theorem c4_finished_frame (cfg : Config) (extract : Option SlotDelta)
    (classify : Option (Capability × String)) (st : ConvState) (msg : String)
    (h : st.status = .finished) :
    ProcessTurn cfg extract classify st msg = (st, endedReply) := by
  unfold ProcessTurn
  rw [if_pos h]

/-- C4, witness at a concrete finished state. -/
theorem c4_finished_frame_witness :
    ProcessTurn {} none none finishedState "hello again"
      = (finishedState, endedReply) :=
  c4_finished_frame {} none none finishedState "hello again" rfl

/-- C5: over any sequence of turns, the final step count exceeds the
initial one by exactly the number of processed (non-rejected) turns —
each processed turn adds one, each rejected turn adds nothing — and a
session started from the initial state ends with step count equal to
the number of processed turns. -/
theorem c5_step_count (cfg : Config) (ts : List TurnInput) (st : ConvState)
    (p : Int) :
    (runTurns cfg st ts).step_count = st.step_count + countProcessed cfg st ts
    ∧ (runTurns cfg (initialState p) ts).step_count
        = countProcessed cfg (initialState p) ts := by
  have main : ∀ (ts : List TurnInput) (st : ConvState),
      (runTurns cfg st ts).step_count
        = st.step_count + countProcessed cfg st ts := by
    intro ts
    induction ts with
    | nil => intro st; simp [runTurns, countProcessed]
    | cons t ts ih =>
      intro st
      simp only [runTurns, countProcessed]
      rw [ih, ProcessTurn_step_count]
      omega
  refine ⟨main ts st, ?_⟩
  rw [main]
  simp [initialState]

/-- C7: a failed collaborator call is caught at the boundary and never
propagates — the embedded page handlers are total functions that append
the apologetic assistant reply to the conversation — and on the
modelled router a classifier failure leaves the session active and
surfaces the apologetic reply. -/
theorem c7_collaborator_failure (e : String) (msgs : List ChatMsg)
    (cfg : Config) (extract : Option SlotDelta) (st : ConvState)
    (msg : String) (h : st.status = .active) :
    bookReplyMessages (.error e) msgs
      = msgs ++ [{ type := .assistant
                   content := "Sorry, I encountered an error: " ++ e }]
    ∧ chatReplyMessages (.error e) msgs
      = msgs ++ [{ type := .assistant
                   content := "I apologize, but I encountered an error while processing your request. Please check your connection and try again." }]
    ∧ ((ProcessTurn cfg extract none st msg).1).status = .active
    ∧ (ProcessTurn cfg extract none st msg).2 = apologyReply := by
  refine ⟨rfl, rfl, ?_, ?_⟩ <;> simp [ProcessTurn, h]

/-- C7, witness: a concrete network failure on a fresh session. -/
theorem c7_collaborator_failure_witness :
    bookReplyMessages (.error "Unable to connect to the server. Please check your connection.") []
      = [{ type := .assistant
           content := "Sorry, I encountered an error: "
             ++ "Unable to connect to the server. Please check your connection." }]
    ∧ chatReplyMessages (.error "Unable to connect to the server. Please check your connection.") []
      = [{ type := .assistant
           content := "I apologize, but I encountered an error while processing your request. Please check your connection and try again." }]
    ∧ ((ProcessTurn {} none none (initialState 5) "book me in").1).status = .active
    ∧ (ProcessTurn {} none none (initialState 5) "book me in").2 = apologyReply :=
  c7_collaborator_failure
    "Unable to connect to the server. Please check your connection." []
    {} none (initialState 5) "book me in" rfl

end DocSys
